import Mathlib

/-!
Verification of the `enum_unwrapper` procedural-macro crate (src/lib.rs).

The crate exposes one attribute macro, `unique_try_froms`, which parses the
annotated item as an enum declaration, extracts for each variant its tag
identifier and the type of its single unnamed payload field, and emits the
original declaration followed by one `TryFrom` implementation per variant.

The shallow embedding below mirrors `src/lib.rs`:
* `TokenStream` models the macro input: either a token stream that parses as
  an enum item (`syn::parse::<syn::ItemEnum>` succeeds) or any other stream.
* `ident_extractor` and `inner_type_extractor` are the two closures of lines
  67-75 of the source; Rust panics become `Except.error` carrying the exact
  panic message string.
* `build_impls` models the `quote!` repetition of lines 78-89, which consumes
  the two lazy iterators (idents and inner types) in variant order and panics
  at the first variant whose inner-type extraction fails.
* `generated_try_from` gives the runtime semantics of one emitted
  `TryFrom` implementation: match the scrutinee's tag against the variant the
  implementation was generated for, returning the wrapped payload on a match
  and a fixed static error string otherwise.
-/

namespace EnumUnwrapper

/-- An identifier token (`syn::Ident`). -/
structure Ident where
  name : String
deriving DecidableEq, Repr

/-- A type reference token sequence (`syn::Type`), abstracted to its text. -/
structure SynType where
  tokens : String
deriving DecidableEq, Repr

/-- The shape of one variant's payload (`syn::Fields`): named fields
(`V { x: T }`), unnamed positional fields (`V(T, ...)`), or a unit variant. -/
inductive Fields where
  | named (fields : List (Ident × SynType))
  | unnamed (tys : List SynType)
  | unit
deriving DecidableEq, Repr

/-- One enum variant (`syn::Variant`): a tag identifier and a payload shape. -/
structure Variant where
  ident : Ident
  fields : Fields
deriving DecidableEq, Repr

/-- A parsed enum declaration (`syn::ItemEnum`): a name and ordered variants. -/
structure ItemEnum where
  ident : Ident
  variants : List Variant
deriving DecidableEq, Repr

/-- The macro-level input: a token stream either parses as an enum item or it
does not.  `enumDecl e` abstracts every stream that `syn::parse` turns into
the enum `e`; `other s` abstracts every stream on which that parse fails. -/
inductive TokenStream where
  | enumDecl (item : ItemEnum)
  | other (raw : String)
deriving DecidableEq, Repr

/-- `syn::parse::<syn::ItemEnum>` on the abstracted token stream. -/
def synParse : TokenStream → Option ItemEnum
  | .enumDecl item => some item
  | .other _ => none

/-- Panic message of line 65: parse failure of the annotated item. -/
def parseErrMsg : String := "This attribute should only be attached to a enum definition"

/-- Panic message of line 72: an unnamed-fields variant with zero fields. -/
def arityErrMsg : String := "Each enum variant should contain one inner value"

/-- Panic message of line 73: a named-fields or unit variant. -/
def shapeErrMsg : String := "An unexpected error occoured, please only use unnamed enum variants"

/-- The static error string baked into every generated `try_from` (line 85). -/
def tryFromErrMsg : String :=
  "Only variants containing an inner value of the same type as the target should be passed to this function"

/-- The closure `ident_extractor` (lines 67-69): clone the variant's tag. -/
def ident_extractor (variant : Variant) : Ident := variant.ident

/-- The closure `inner_type_extractor` (lines 70-75): on unnamed fields take
the FIRST field's type (`.first().expect(...)`), panicking only when there are
zero fields; on any other shape (`_` arm) panic with the shape message. -/
def inner_type_extractor (variant : Variant) : Except String SynType :=
  match variant.fields with
  | .unnamed wrapped =>
    match wrapped.head? with
    | some ty => .ok ty
    | none => .error arityErrMsg
  | _ => .error shapeErrMsg

/-- One synthesized `impl TryFrom<#enum_name> for #target_type` block
(lines 80-88), recording the data interpolated into the quoted template. -/
structure ImplTryFrom where
  enumName : Ident
  targetType : SynType
  variantName : Ident
  errorMsg : String
deriving DecidableEq, Repr

/-- The macro's output token stream on success: the re-emitted original
declaration (`#parsed_enum`, line 79) followed by the generated
implementations in variant order, and nothing else. -/
structure Output where
  decl : ItemEnum
  impls : List ImplTryFrom
deriving DecidableEq, Repr

/-- The `quote!` repetition `#(impl TryFrom ...)*` (lines 80-88): it walks the
two lazy iterators `enum_variants` and `variant_types` in variant order,
producing one implementation per variant and aborting with the first
extraction panic it encounters. -/
def build_impls (enum_name : Ident) : List Variant → Except String (List ImplTryFrom)
  | [] => .ok []
  | variant :: rest =>
    match inner_type_extractor variant with
    | .error msg => .error msg
    | .ok ty =>
      match build_impls enum_name rest with
      | .error msg => .error msg
      | .ok impls =>
        .ok ({ enumName := enum_name, targetType := ty,
               variantName := ident_extractor variant,
               errorMsg := tryFromErrMsg } :: impls)

/-- The attribute macro `unique_try_froms` (lines 64-90).  Its first argument
(`_exempt_types`) is bound but never read.  A `.error` value models a panic
aborting the compilation with that message; `.ok` models returned syntax. -/
def unique_try_froms (exempt_types : TokenStream) (user_enum : TokenStream) :
    Except String Output :=
  match synParse user_enum with
  | none => .error parseErrMsg
  | some parsed_enum =>
    match build_impls parsed_enum.ident parsed_enum.variants with
    | .error msg => .error msg
    | .ok impls => .ok { decl := parsed_enum, impls := impls }

/-- A runtime value of the annotated enum type: the tag it was constructed
with and the wrapped payload.  The payload type is a parameter because each
variant wraps its own inner type. -/
structure EnumValue (α : Type) where
  tag : Ident
  payload : α
deriving DecidableEq, Repr

/-- Runtime semantics of one generated implementation (lines 82-87): the
emitted `match value` has exactly two arms — `#enum_name::#variant(inner) =>
Ok(inner)` and `_ => Err(...)` — so it returns the payload when the
scrutinee's tag is the variant the implementation was generated for, and the
fixed static error string otherwise.  It is a total function: no panic. -/
def generated_try_from {α : Type} (impl : ImplTryFrom) (value : EnumValue α) :
    Except String α :=
  if value.tag = impl.variantName then .ok value.payload
  else .error impl.errorMsg

/-- Correspondence between a source variant and the implementation generated
for it: same enum name, same tag, target type as extracted from the variant,
and the fixed error message. -/
def implMatches (enum_name : Ident) (variant : Variant) (impl : ImplTryFrom) : Prop :=
  impl.enumName = enum_name ∧ impl.variantName = variant.ident ∧
    inner_type_extractor variant = Except.ok impl.targetType ∧
    impl.errorMsg = tryFromErrMsg

/-- The payload shape the spec (§4, C4) claims is the only accepted one. -/
def unnamedSingle (variant : Variant) : Prop :=
  ∃ ty, variant.fields = Fields.unnamed [ty]

/-- The payload shapes the source actually rejects: named fields, an empty
unnamed field list, or a unit variant. -/
def specRejectedShape (variant : Variant) : Prop :=
  (∃ fs, variant.fields = Fields.named fs) ∨
    variant.fields = Fields.unnamed [] ∨ variant.fields = Fields.unit

/- Concrete declarations used as test inputs and witnesses. -/

/-- The type token `u8`. -/
def u8Ty : SynType := ⟨"u8"⟩

/-- The type token `u16`. -/
def u16Ty : SynType := ⟨"u16"⟩

/-- The spec's §8 concrete scenario: `enum NumberHolder { U8(u8), U16(u16) }`. -/
def numberHolder : ItemEnum :=
  ⟨⟨"NumberHolder"⟩, [⟨⟨"U8"⟩, .unnamed [u8Ty]⟩, ⟨⟨"U16"⟩, .unnamed [u16Ty]⟩]⟩

/-- The output the generator produces for `numberHolder`. -/
def numberHolderOut : Output :=
  ⟨numberHolder,
   [⟨⟨"NumberHolder"⟩, u8Ty, ⟨"U8"⟩, tryFromErrMsg⟩,
    ⟨⟨"NumberHolder"⟩, u16Ty, ⟨"U16"⟩, tryFromErrMsg⟩]⟩

/-- `enum MultiField { V(u8, u16) }`: a variant with two unnamed fields. -/
def multiFieldEnum : ItemEnum :=
  ⟨⟨"MultiField"⟩, [⟨⟨"V"⟩, .unnamed [u8Ty, u16Ty]⟩]⟩

/-- `enum Pair { Both(u8, u8) }`: a variant with two unnamed fields. -/
def twoFieldEnum : ItemEnum :=
  ⟨⟨"Pair"⟩, [⟨⟨"Both"⟩, .unnamed [u8Ty, u8Ty]⟩]⟩

/-- `enum HasUnit { A(u8), Nothing }`: its second variant is a unit variant. -/
def hasUnitEnum : ItemEnum :=
  ⟨⟨"HasUnit"⟩, [⟨⟨"A"⟩, .unnamed [u8Ty]⟩, ⟨⟨"Nothing"⟩, .unit⟩]⟩

/-- `enum Dup { A(u8), B(u8) }`: two variants wrapping the same inner type. -/
def dupEnum : ItemEnum :=
  ⟨⟨"Dup"⟩, [⟨⟨"A"⟩, .unnamed [u8Ty]⟩, ⟨⟨"B"⟩, .unnamed [u8Ty]⟩]⟩

/- Structural lemmas about the generator. -/

/-- When the repetition succeeds, each produced implementation corresponds to
the source variant at the same position. -/
theorem build_impls_ok_forall₂ (enum_name : Ident) (vs : List Variant)
    (impls : List ImplTryFrom) (h : build_impls enum_name vs = .ok impls) :
    List.Forall₂ (implMatches enum_name) vs impls := by
  induction vs generalizing impls with
  | nil =>
    simp only [build_impls] at h
    cases h
    exact List.Forall₂.nil
  | cons v rest ih =>
    simp only [build_impls] at h
    cases hv : inner_type_extractor v with
    | error msg => rw [hv] at h; cases h
    | ok ty =>
      rw [hv] at h
      cases hr : build_impls enum_name rest with
      | error msg => rw [hr] at h; cases h
      | ok tailImpls =>
        rw [hr] at h
        cases h
        exact List.Forall₂.cons ⟨rfl, rfl, hv, rfl⟩ (ih _ hr)

/-- Any error message produced by `inner_type_extractor` is one of the two
fixed panic messages of lines 72-73. -/
theorem inner_type_extractor_error_msg (variant : Variant) (msg : String)
    (h : inner_type_extractor variant = .error msg) :
    msg = arityErrMsg ∨ msg = shapeErrMsg := by
  unfold inner_type_extractor at h
  cases hf : variant.fields with
  | named fs => rw [hf] at h; cases h; exact Or.inr rfl
  | unit => rw [hf] at h; cases h; exact Or.inr rfl
  | unnamed tys =>
    rw [hf] at h
    cases tys with
    | nil => cases h; exact Or.inl rfl
    | cons t ts => simp at h

/-- A rejected payload shape makes `inner_type_extractor` fail. -/
theorem inner_type_extractor_rejects (variant : Variant)
    (h : specRejectedShape variant) :
    ∃ msg, inner_type_extractor variant = .error msg := by
  unfold inner_type_extractor
  rcases h with ⟨fs, hf⟩ | hf | hf <;> rw [hf] <;> exact ⟨_, rfl⟩

/-- If some variant's extraction fails, the repetition aborts with one of the
two fixed panic messages. -/
theorem build_impls_error_of_bad (enum_name : Ident) (vs : List Variant)
    (hbad : ∃ v ∈ vs, ∃ m, inner_type_extractor v = .error m) :
    ∃ msg, build_impls enum_name vs = .error msg ∧
      (msg = arityErrMsg ∨ msg = shapeErrMsg) := by
  induction vs with
  | nil => rcases hbad with ⟨v, hv, _⟩; cases hv
  | cons v rest ih =>
    cases hv : inner_type_extractor v with
    | error msg =>
      exact ⟨msg, by simp [build_impls, hv],
        inner_type_extractor_error_msg v msg hv⟩
    | ok ty =>
      rcases hbad with ⟨w, hw, m, hm⟩
      rcases List.mem_cons.mp hw with rfl | hwrest
      · rw [hv] at hm; cases hm
      · rcases ih ⟨w, hwrest, m, hm⟩ with ⟨msg, hmsg, hfix⟩
        exact ⟨msg, by simp [build_impls, hv, hmsg], hfix⟩

/-- If every variant's extraction succeeds, the repetition succeeds and emits
exactly one implementation per variant. -/
theorem build_impls_ok_of_all_good (enum_name : Ident) (vs : List Variant)
    (hall : ∀ v ∈ vs, ∃ ty, inner_type_extractor v = .ok ty) :
    ∃ impls, build_impls enum_name vs = .ok impls ∧ impls.length = vs.length := by
  induction vs with
  | nil => exact ⟨[], rfl, rfl⟩
  | cons v rest ih =>
    rcases hall v (List.mem_cons_self v rest) with ⟨ty, hv⟩
    rcases ih (fun w hw => hall w (List.mem_cons_of_mem v hw)) with ⟨impls, himpls, hlen⟩
    exact ⟨{ enumName := enum_name, targetType := ty,
             variantName := ident_extractor v, errorMsg := tryFromErrMsg } :: impls,
      by simp [build_impls, hv, himpls], by simp [hlen]⟩

/-- Unfolding the generator on an input that parses as an enum declaration. -/
theorem unique_try_froms_enumDecl (exempt : TokenStream) (item : ItemEnum) :
    unique_try_froms exempt (.enumDecl item) =
      match build_impls item.ident item.variants with
      | .error msg => .error msg
      | .ok impls => .ok { decl := item, impls := impls } := rfl

/-- On success the generator re-emits the parsed declaration unchanged and
pairs implementations with variants positionally. -/
theorem unique_try_froms_ok_spec (exempt : TokenStream) (item : ItemEnum)
    (out : Output) (h : unique_try_froms exempt (.enumDecl item) = .ok out) :
    out.decl = item ∧ List.Forall₂ (implMatches item.ident) item.variants out.impls := by
  rw [unique_try_froms_enumDecl] at h
  cases hb : build_impls item.ident item.variants with
  | error msg => rw [hb] at h; cases h
  | ok impls =>
    rw [hb] at h
    cases h
    exact ⟨rfl, build_impls_ok_forall₂ item.ident item.variants impls hb⟩

/- Claim theorems. -/

/-- Claim C1: for every annotated enum, the implementation generated for the
variant at position `i`, applied to a value constructed with that variant's
tag and payload `v`, returns `Ok v` — construct-then-convert is the identity
on the payload. -/
theorem round_trip_identity {α : Type} (exempt : TokenStream) (item : ItemEnum)
    (out : Output) (h : unique_try_froms exempt (.enumDecl item) = .ok out)
    (i : Nat) (hi : i < item.variants.length) (hi' : i < out.impls.length)
    (v : α) :
    generated_try_from (out.impls.get ⟨i, hi'⟩)
      ⟨(item.variants.get ⟨i, hi⟩).ident, v⟩ = Except.ok v := by
  rcases unique_try_froms_ok_spec exempt item out h with ⟨_, hcorr⟩
  rcases hcorr.get hi hi' with ⟨_, hname, _, _⟩
  show (if (item.variants.get ⟨i, hi⟩).ident = (out.impls.get ⟨i, hi'⟩).variantName
      then Except.ok v
      else Except.error (out.impls.get ⟨i, hi'⟩).errorMsg) = Except.ok v
  rw [hname, if_pos rfl]

/-- Witness for C1, the spec's §8 scenario: `NumberHolder::U8(4)` converted by
the implementation generated for `U8` yields `Ok 4`. -/
theorem round_trip_identity_witness :
    generated_try_from (numberHolderOut.impls.get ⟨0, by decide⟩)
      ⟨(numberHolder.variants.get ⟨0, by decide⟩).ident, (4 : Nat)⟩ =
      Except.ok 4 :=
  round_trip_identity (.other "") numberHolder numberHolderOut rfl 0
    (by decide) (by decide) 4

/-- Claim C2: for distinct variants at positions `i` and `j` with distinct
inner types, the implementation generated for variant `j`, applied to a value
constructed with variant `i`'s tag, returns exactly
`Err "Only variants containing an inner value of the same type as the target
should be passed to this function"` — a failure, never a success, and (being
a total Lean function) never a panic or abort. -/
theorem cross_variant_failure {α : Type} (exempt : TokenStream)
    (item : ItemEnum) (out : Output)
    (h : unique_try_froms exempt (.enumDecl item) = .ok out)
    (i j : Nat) (hi : i < item.variants.length) (hj : j < item.variants.length)
    (hj' : j < out.impls.length)
    (hvne : (item.variants.get ⟨i, hi⟩).ident ≠ (item.variants.get ⟨j, hj⟩).ident)
    (ti tj : SynType)
    (hti : inner_type_extractor (item.variants.get ⟨i, hi⟩) = .ok ti)
    (htj : inner_type_extractor (item.variants.get ⟨j, hj⟩) = .ok tj)
    (htne : ti ≠ tj) (v : α) :
    generated_try_from (out.impls.get ⟨j, hj'⟩)
      ⟨(item.variants.get ⟨i, hi⟩).ident, v⟩ = Except.error tryFromErrMsg := by
  rcases unique_try_froms_ok_spec exempt item out h with ⟨_, hcorr⟩
  rcases hcorr.get hj hj' with ⟨_, hname, _, herr⟩
  show (if (item.variants.get ⟨i, hi⟩).ident = (out.impls.get ⟨j, hj'⟩).variantName
      then Except.ok v
      else Except.error (out.impls.get ⟨j, hj'⟩).errorMsg) = Except.error tryFromErrMsg
  rw [hname, if_neg hvne, herr]

/-- Witness for C2, the spec's §8 scenario: `NumberHolder::U8(4)` converted by
the implementation generated for `U16` yields the fixed error string. -/
theorem cross_variant_failure_witness :
    generated_try_from (numberHolderOut.impls.get ⟨1, by decide⟩)
      ⟨(numberHolder.variants.get ⟨0, by decide⟩).ident, (4 : Nat)⟩ =
      Except.error tryFromErrMsg :=
  cross_variant_failure (.other "") numberHolder numberHolderOut rfl 0 1
    (by decide) (by decide) (by decide) (by decide) u8Ty u16Ty rfl rfl
    (by decide) 4

/-- Claim C3 (code bug): on `enum MultiField { V(u8, u16) }`, whose only
variant carries two unnamed payload fields, the generator does NOT abort:
`.first()` silently selects the first field and the macro returns an output
fragment with an implementation targeting `u8`.  The crate's own `# Panics`
documentation (lines 53-56 of src/lib.rs) and the spec both state this input
panics with the payload-arity diagnostic. -/
theorem multi_field_not_rejected :
    unique_try_froms (.other "") (.enumDecl multiFieldEnum) =
      Except.ok ⟨multiFieldEnum, [⟨⟨"MultiField"⟩, u8Ty, ⟨"V"⟩, tryFromErrMsg⟩]⟩ := rfl

/-- Counterexample to claim C4 as stated: it is not true that every payload
shape other than exactly one unnamed field is rejected — `enum Pair
{ Both(u8, u8) }` has a variant whose shape is not `unnamed [ty]` for any
`ty`, yet the generator returns successfully. -/
theorem bad_shape_claim_counterexample :
    ¬ (∀ (exempt : TokenStream) (item : ItemEnum),
        (∃ v ∈ item.variants, ¬ unnamedSingle v) →
        ∃ msg, unique_try_froms exempt (.enumDecl item) = .error msg) := by
  intro hclaim
  have hbad : ∃ v ∈ twoFieldEnum.variants, ¬ unnamedSingle v := by
    refine ⟨⟨⟨"Both"⟩, .unnamed [u8Ty, u8Ty]⟩, by simp [twoFieldEnum], ?_⟩
    rintro ⟨ty, hty⟩
    simp [unnamedSingle] at hty
  rcases hclaim (.other "") twoFieldEnum hbad with ⟨msg, hmsg⟩
  rw [show unique_try_froms (.other "") (.enumDecl twoFieldEnum) =
      Except.ok ⟨twoFieldEnum, [⟨⟨"Pair"⟩, u8Ty, ⟨"Both"⟩, tryFromErrMsg⟩]⟩ from rfl]
    at hmsg
  cases hmsg

/-- Claim C4 (amended): for every input enum in which some variant's payload
uses named fields, or is an unnamed field list with zero fields, or is a unit
variant, the generator aborts with one of the two fixed diagnostics instead
of returning an output fragment.  (A variant with two or more unnamed fields
is NOT rejected: the generator silently uses the first field's type.) -/
theorem bad_shape_rejected (exempt : TokenStream) (item : ItemEnum)
    (hbad : ∃ v ∈ item.variants, specRejectedShape v) :
    ∃ msg, unique_try_froms exempt (.enumDecl item) = .error msg ∧
      (msg = arityErrMsg ∨ msg = shapeErrMsg) := by
  rcases hbad with ⟨v, hv, hshape⟩
  rcases inner_type_extractor_rejects v hshape with ⟨m, hm⟩
  rcases build_impls_error_of_bad item.ident item.variants ⟨v, hv, m, hm⟩ with
    ⟨msg, hmsg, hfix⟩
  exact ⟨msg, by simp [unique_try_froms, synParse, hmsg], hfix⟩

/-- Witness for the amended C4: `enum HasUnit { A(u8), Nothing }` (a unit
variant) makes the generator abort with a fixed diagnostic. -/
theorem bad_shape_rejected_witness :
    ∃ msg, unique_try_froms (.other "") (.enumDecl hasUnitEnum) = .error msg ∧
      (msg = arityErrMsg ∨ msg = shapeErrMsg) :=
  bad_shape_rejected (.other "") hasUnitEnum
    ⟨⟨⟨"Nothing"⟩, .unit⟩, by simp [hasUnitEnum], Or.inr (Or.inr rfl)⟩

/-- Claim C5: whenever the annotated item does not parse as an enum
declaration, the generator aborts immediately with the fixed message
`"This attribute should only be attached to a enum definition"` and never
returns replacement syntax. -/
theorem non_enum_rejected (exempt input : TokenStream)
    (h : synParse input = none) :
    unique_try_froms exempt input = Except.error parseErrMsg := by
  unfold unique_try_froms
  rw [h]

/-- Witness for C5: a token stream that is not an enum declaration (e.g. a
struct definition) is rejected with the parse diagnostic. -/
theorem non_enum_rejected_witness :
    unique_try_froms (.other "") (.other "struct S;") = Except.error parseErrMsg :=
  non_enum_rejected (.other "") (.other "struct S;") rfl

/-- Claim C6: on success the output fragment is the original declaration
unchanged, followed by the synthesized implementations in variant order (one
per variant, positionally matching the variants), and nothing else. -/
theorem output_is_decl_then_impls (exempt : TokenStream) (item : ItemEnum)
    (out : Output) (h : unique_try_froms exempt (.enumDecl item) = .ok out) :
    out.decl = item ∧
      List.Forall₂ (implMatches item.ident) item.variants out.impls :=
  unique_try_froms_ok_spec exempt item out h

/-- Witness for C6: the generator's output for `NumberHolder` carries the
unchanged declaration and the two implementations in variant order. -/
theorem output_is_decl_then_impls_witness :
    numberHolderOut.decl = numberHolder ∧
      List.Forall₂ (implMatches numberHolder.ident) numberHolder.variants
        numberHolderOut.impls :=
  output_is_decl_then_impls (.other "") numberHolder numberHolderOut rfl

/-- Claim C7: no duplicate-inner-type detection is performed — every enum
whose variants each carry exactly one unnamed field is accepted, with exactly
one implementation synthesized per variant, even when variants share an inner
type. -/
theorem no_duplicate_detection (exempt : TokenStream) (item : ItemEnum)
    (hall : ∀ v ∈ item.variants, ∃ ty, v.fields = Fields.unnamed [ty]) :
    ∃ out, unique_try_froms exempt (.enumDecl item) = .ok out ∧
      out.impls.length = item.variants.length := by
  have hgood : ∀ v ∈ item.variants, ∃ ty, inner_type_extractor v = .ok ty := by
    intro v hv
    rcases hall v hv with ⟨ty, hty⟩
    exact ⟨ty, by simp [inner_type_extractor, hty]⟩
  rcases build_impls_ok_of_all_good item.ident item.variants hgood with
    ⟨impls, himpls, hlen⟩
  exact ⟨⟨item, impls⟩, by simp [unique_try_froms, synParse, himpls], hlen⟩

/-- Witness for C7: `enum Dup { A(u8), B(u8) }`, where both variants wrap
`u8`, is accepted and gets one implementation per variant. -/
theorem no_duplicate_detection_witness :
    ∃ out, unique_try_froms (.other "") (.enumDecl dupEnum) = .ok out ∧
      out.impls.length = dupEnum.variants.length :=
  no_duplicate_detection (.other "") dupEnum
    (by
      intro v hv
      simp only [dupEnum, List.mem_cons, List.mem_singleton] at hv
      rcases hv with rfl | rfl | h
      · exact ⟨u8Ty, rfl⟩
      · exact ⟨u8Ty, rfl⟩
      · cases h)

/-- Claim C8: the generator is a pure deterministic function of its input:
two runs on equal attribute arguments and equal declaration syntax produce
identical outcomes (the embedding is a function of exactly those two
arguments, with no hidden state). -/
theorem generator_deterministic (e₁ e₂ d₁ d₂ : TokenStream)
    (he : e₁ = e₂) (hd : d₁ = d₂) :
    unique_try_froms e₁ d₁ = unique_try_froms e₂ d₂ := by
  rw [he, hd]

/-- Witness for C8: two runs on the `NumberHolder` declaration agree. -/
theorem generator_deterministic_witness :
    unique_try_froms (.other "") (.enumDecl numberHolder) =
      unique_try_froms (.other "") (.enumDecl numberHolder) :=
  generator_deterministic (.other "") (.other "") (.enumDecl numberHolder)
    (.enumDecl numberHolder) rfl rfl

/-- Claim C9: the attribute's own argument list is accepted but ignored — for
every declaration fragment, any two attribute-argument streams yield the
identical outcome, output syntax and diagnostics included. -/
theorem exempt_types_ignored (e₁ e₂ user_enum : TokenStream) :
    unique_try_froms e₁ user_enum = unique_try_froms e₂ user_enum := rfl

/-- Claim C10: an enum with zero variants is accepted, and the output is the
original declaration with an empty list of implementations. -/
theorem empty_enum_accepted (exempt : TokenStream) (name : Ident) :
    unique_try_froms exempt (.enumDecl ⟨name, []⟩) =
      Except.ok ⟨⟨name, []⟩, []⟩ := rfl

end EnumUnwrapper
